import Mathlib

/-!
Verification of the `ok` subcommand of sevctl (src/ok.rs): a dependency-gated
probe engine that runs CPU-capability CPUID probes in tiered groups, then a
flat list of OS/environment tests, reporting Pass/Fail/Skip per probe and
aggregating one overall verdict.

Modelling conventions:
  * CPUID register reads (`__cpuid`) are an environment `CpuidEnv : Nat → CpuidResult`
    mapping a leaf to the four 32-bit registers (as `Nat`, values < 2^32 in use).
  * OS-level effects (opening /dev/sev, /dev/kvm, reading the kvm_amd `sev`
    parameter, getrlimit) are an environment record `OsEnv`.
  * A Rust panic (e.g. `unwrap()` on invalid UTF-8) is modelled by `Option`:
    a probe check returns `none` exactly when the Rust closure panics.
  * Rust strings are kept as Lean `String` where only formatting happens;
    inside the microcode check, processing of raw CPUID bytes
    (`String::from_utf8`, `trim`, `to_uppercase`, `contains "EPYC"`) is
    modelled on the byte list, with `trim`/`to_uppercase` restricted to their
    ASCII behaviour (the bytes compared against are all ASCII).
  * The Reporter sink (`emit_result` / `emit_skip` + println) is modelled as
    an emitted list of `Event`s; the engine appends an event exactly where the
    source calls the emit function.
-/

/-- Generation selector, from the `SevGeneration` enum in src/ok.rs. -/
inductive SevGeneration where
  | Sev
  | Es
deriving DecidableEq, Repr

/-- The `SYS_TEST_LEVEL` constant in src/ok.rs. -/
def SYS_TEST_LEVEL : Nat := 5

/-- The four 32-bit registers returned by a CPUID query. -/
structure CpuidResult where
  eax : Nat
  ebx : Nat
  ecx : Nat
  edx : Nat
deriving DecidableEq, Repr

/-- The CPUID hardware environment: what `__cpuid(leaf)` returns. -/
abbrev CpuidEnv := Nat → CpuidResult

/-- One Reporter-sink invocation: `result success msg level` models a call to
`emit_result`, `skip msg level` models a call to `emit_skip`. -/
inductive Event where
  | result : Bool → String → Nat → Event
  | skip : String → Nat → Event
deriving DecidableEq, Repr

/-- A CPUID probe descriptor, from `struct CpuId` in src/ok.rs.  The check
function also receives the environment because one source closure (the
microcode check) issues further `__cpuid` calls itself; `none` models a
panic inside the closure. -/
structure CpuId where
  name : String
  leaf : Nat
  func : CpuidEnv → CpuidResult → Option (Bool × Option String)
  level : Nat

/-- The little-endian bytes of a 32-bit register value (`u32::to_le_bytes`). -/
def u32LeBytes (x : Nat) : List Nat :=
  [x % 256, x / 256 % 256, x / 65536 % 256, x / 16777216 % 256]

/-- UTF-8 validity of a byte sequence, as checked by Rust's
`str::from_utf8` / `String::from_utf8` (the standard ranges: C0/C1 and
bytes above F4 invalid, E0 requires A0..BF, ED requires 80..9F, F0
requires 90..BF, F4 requires 80..8F, continuation bytes 80..BF). -/
def utf8Valid : List Nat → Bool
  | [] => true
  | b :: rest =>
    if b ≤ 0x7F then utf8Valid rest
    else if 0xC2 ≤ b ∧ b ≤ 0xDF then
      match rest with
      | c :: r => if 0x80 ≤ c ∧ c ≤ 0xBF then utf8Valid r else false
      | [] => false
    else if b = 0xE0 ∨ (0xE1 ≤ b ∧ b ≤ 0xEF) then
      match rest with
      | c :: d :: r =>
        if ((if b = 0xE0 then 0xA0 else 0x80) ≤ c ∧ c ≤ (if b = 0xED then 0x9F else 0xBF))
            ∧ (0x80 ≤ d ∧ d ≤ 0xBF) then utf8Valid r else false
      | _ => false
    else if b = 0xF0 ∨ (0xF1 ≤ b ∧ b ≤ 0xF4) then
      match rest with
      | c :: d :: e :: r =>
        if ((if b = 0xF0 then 0x90 else 0x80) ≤ c ∧ c ≤ (if b = 0xF4 then 0x8F else 0xBF))
            ∧ (0x80 ≤ d ∧ d ≤ 0xBF) ∧ (0x80 ≤ e ∧ e ≤ 0xBF) then utf8Valid r else false
      | _ => false
    else false

/-- The 12 vendor-string bytes: `transmute([ebx, edx, ecx])` on a
little-endian machine is the concatenation of the registers' LE bytes. -/
def vendorBytes (res : CpuidResult) : List Nat :=
  u32LeBytes res.ebx ++ u32LeBytes res.edx ++ u32LeBytes res.ecx

/-- The ASCII bytes of the string "AuthenticAMD". -/
def authenticAmdBytes : List Nat :=
  [65, 117, 116, 104, 101, 110, 116, 105, 99, 65, 77, 68]

/-- Check for the tier-1 "AMD CPU" probe: `from_utf8(&name).unwrap()` panics
(modelled as `none`) when the 12 vendor bytes are not valid UTF-8; comparing
the decoded string against "AuthenticAMD" is modelled as byte-list equality
(UTF-8 decoding is injective and "AuthenticAMD" is ASCII). -/
def amdCpuFunc : CpuidEnv → CpuidResult → Option (Bool × Option String) :=
  fun _ res =>
    let bytes := vendorBytes res
    if utf8Valid bytes then some (bytes == authenticAmdBytes, none) else none

/-- All 16 little-endian bytes of a CPUID result, in register order
eax, ebx, ecx, edx (as the microcode check collects them). -/
def regLeBytes (r : CpuidResult) : List Nat :=
  u32LeBytes r.eax ++ u32LeBytes r.ebx ++ u32LeBytes r.ecx ++ u32LeBytes r.edx

/-- The ASCII bytes of the string "ERROR_FOUND". -/
def errorFoundBytes : List Nat :=
  [69, 82, 82, 79, 82, 95, 70, 79, 85, 78, 68]

/-- The ASCII bytes of the string "EPYC". -/
def epycBytes : List Nat := [69, 80, 89, 67]

/-- ASCII whitespace as recognised by Rust's `str::trim` (restricted to
single-byte characters: tab, LF, vertical tab, form feed, CR, space). -/
def isAsciiWhitespace (b : Nat) : Bool :=
  b == 9 || b == 10 || b == 11 || b == 12 || b == 13 || b == 32

/-- Byte-level model of `str::trim`. -/
def trimBytes (bs : List Nat) : List Nat :=
  ((bs.dropWhile isAsciiWhitespace).reverse.dropWhile isAsciiWhitespace).reverse

/-- Byte-level model of `to_uppercase`, restricted to ASCII letters. -/
def toUpperByte (b : Nat) : Nat :=
  if 97 ≤ b ∧ b ≤ 122 then b - 32 else b

/-- Does the haystack start with the pattern. -/
def startsWithBytes : List Nat → List Nat → Bool
  | [], _ => true
  | _ :: _, [] => false
  | a :: as, b :: bs => a == b && startsWithBytes as bs

/-- Substring search (`str::contains` with a string pattern), on bytes. -/
def containsBytes (pat : List Nat) : List Nat → Bool
  | [] => startsWithBytes pat []
  | b :: rest => startsWithBytes pat (b :: rest) || containsBytes pat rest

/-- Check for the tier-2 "Microcode support" probe: reads CPUID leaves
0x80000002..=0x80000004 itself, decodes the 48 bytes
(`String::from_utf8(...).unwrap_or_else(|_| "ERROR_FOUND")`), trims,
uppercases and searches for "EPYC".  Never panics. -/
def microcodeFunc : CpuidEnv → CpuidResult → Option (Bool × Option String) :=
  fun env _ =>
    let bytestr :=
      regLeBytes (env 0x80000002) ++ regLeBytes (env 0x80000003) ++ regLeBytes (env 0x80000004)
    let cpuName := trimBytes (if utf8Valid bytestr then bytestr else errorFoundBytes)
    some (containsBytes epycBytes (cpuName.map toUpperByte), none)

/-- Check for the tier-3 "AMD SEV" probe: `eax & (0x1 << 1) != 0`. -/
def amdSevFunc : CpuidEnv → CpuidResult → Option (Bool × Option String) :=
  fun _ res => some (res.eax &&& (0x1 <<< 1) != 0, none)

/-- Check for the tier-3 "AMD SME" probe: `eax & 0x1 != 0`. -/
def amdSmeFunc : CpuidEnv → CpuidResult → Option (Bool × Option String) :=
  fun _ res => some (res.eax &&& 0x1 != 0, none)

/-- Check for the tier-4 "Page flush MSR" probe: `eax & (0x1 << 2) != 0`. -/
def pageFlushFunc : CpuidEnv → CpuidResult → Option (Bool × Option String) :=
  fun _ res => some (res.eax &&& (0x1 <<< 2) != 0, none)

/-- Check for the tier-4 "Physical address bit reduction" probe.  In the
source the expression is `res.ebx & 0b1111_1100_0000 >> 6`; Rust's `>>`
binds tighter than `&`, so this is `res.ebx & (0b1111_1100_0000 >> 6)`,
i.e. `res.ebx & 63`.  Always succeeds, reporting the field value. -/
def physAddrFunc : CpuidEnv → CpuidResult → Option (Bool × Option String) :=
  fun _ res =>
    let field := res.ebx &&& (0b111111000000 >>> 6)
    some (true, some (toString field))

/-- Check for the tier-4 "C-bit location in page table entry" probe:
`res.ebx & 0b01_1111`.  Always succeeds, reporting the field value. -/
def cBitFunc : CpuidEnv → CpuidResult → Option (Bool × Option String) :=
  fun _ res =>
    let field := res.ebx &&& 0b011111
    some (true, some (toString field))

/-- Check for the tier-4 "Number of encrypted guests supported
simultaneously" probe: always succeeds, reporting `ecx`. -/
def encGuestsFunc : CpuidEnv → CpuidResult → Option (Bool × Option String) :=
  fun _ res => some (true, some (toString res.ecx))

/-- Check for the tier-4 "Minimum ASID value" probe: always succeeds,
reporting `edx`. -/
def minAsidFunc : CpuidEnv → CpuidResult → Option (Bool × Option String) :=
  fun _ res => some (true, some (toString res.edx))

/-- Check for the SEV-ES-specific tier-4 probe: `eax & (0x1 << 3) != 0`. -/
def sevEsFunc : CpuidEnv → CpuidResult → Option (Bool × Option String) :=
  fun _ res => some (res.eax &&& (0x1 <<< 3) != 0, none)

/-- The tier-1 probe, sole element of `CORE_CPUID`. -/
def coreProbe : CpuId := ⟨"AMD CPU", 0x00000000, amdCpuFunc, 1⟩

/-- The tier-2 probe, sole element of `AMD_CPU_DEPENDENT_CPUIDS`. -/
def microcodeProbe : CpuId := ⟨"Microcode support", 0x80000002, microcodeFunc, 2⟩

/-- Tier-3 probe "AMD SEV". -/
def amdSevProbe : CpuId := ⟨"AMD SEV", 0x8000001f, amdSevFunc, 3⟩

/-- Tier-3 probe "AMD SME". -/
def amdSmeProbe : CpuId := ⟨"AMD SME", 0x8000001f, amdSmeFunc, 3⟩

/-- Tier-4 probe "Page flush MSR". -/
def pageFlushProbe : CpuId := ⟨"Page flush MSR", 0x8000001f, pageFlushFunc, 4⟩

/-- Tier-4 probe "Physical address bit reduction". -/
def physAddrProbe : CpuId := ⟨"Physical address bit reduction", 0x8000001f, physAddrFunc, 4⟩

/-- Tier-4 probe "C-bit location in page table entry". -/
def cBitProbe : CpuId := ⟨"C-bit location in page table entry", 0x8000001f, cBitFunc, 4⟩

/-- Tier-4 probe "Number of encrypted guests supported simultaneously". -/
def encGuestsProbe : CpuId :=
  ⟨"Number of encrypted guests supported simultaneously", 0x8000001f, encGuestsFunc, 4⟩

/-- Tier-4 probe "Minimum ASID value for SEV-enabled, SEV-ES disabled guest". -/
def minAsidProbe : CpuId :=
  ⟨"Minimum ASID value for SEV-enabled, SEV-ES disabled guest", 0x8000001f, minAsidFunc, 4⟩

/-- SEV-ES-specific tier-4 probe "AMD SEV-ES". -/
def sevEsProbe : CpuId := ⟨"AMD SEV-ES", 0x8000001f, sevEsFunc, 4⟩

/-- `CORE_CPUID` from src/ok.rs. -/
def CORE_CPUID : List CpuId := [coreProbe]

/-- `AMD_CPU_DEPENDENT_CPUIDS` from src/ok.rs. -/
def AMD_CPU_DEPENDENT_CPUIDS : List CpuId := [microcodeProbe]

/-- `MICROCODE_DEPENDENT_CPUIDS` from src/ok.rs. -/
def MICROCODE_DEPENDENT_CPUIDS : List CpuId := [amdSevProbe, amdSmeProbe]

/-- `SEV_SME_DEPENDENT_CPUIDS` from src/ok.rs. -/
def SEV_SME_DEPENDENT_CPUIDS : List CpuId :=
  [pageFlushProbe, physAddrProbe, cBitProbe, encGuestsProbe, minAsidProbe]

/-- `SEV_ES_CPUIDS` from src/ok.rs. -/
def SEV_ES_CPUIDS : List CpuId := [sevEsProbe]

/-- `CpuId::execute` from src/ok.rs: run the check on the register result of
the probe's leaf, then prefix the probe name onto any detail message.
`none` propagates a panic inside the check. -/
def CpuId.execute (c : CpuId) (env : CpuidEnv) : Option (Bool × String) :=
  match c.func env (env c.leaf) with
  | none => none
  | some (success, some m) => some (success, c.name ++ ": " ++ m)
  | some (success, none) => some (success, c.name)

/-- `collect_cpuids` from src/ok.rs: the four-tier chain, plus the SEV-ES
group when the Es generation is selected. -/
def collect_cpuids (gen : SevGeneration) : List (List CpuId) :=
  let cVec := [CORE_CPUID, AMD_CPU_DEPENDENT_CPUIDS, MICROCODE_DEPENDENT_CPUIDS,
    SEV_SME_DEPENDENT_CPUIDS]
  match gen with
  | SevGeneration.Es => cVec ++ [SEV_ES_CPUIDS]
  | SevGeneration.Sev => cVec

/-- The catalog `cmd` builds from its optional generation argument
(src/ok.rs lines 146-149): absent selector defaults to `Es`. -/
def catalogOf (gen : Option SevGeneration) : List (List CpuId) :=
  match gen with
  | some g => collect_cpuids g
  | none => collect_cpuids SevGeneration.Es

/-- The OS-level environment consumed by the system tests: results of the
file opens, the KVM ioctl, the kvm_amd `sev` parameter file and getrlimit. -/
structure OsEnv where
  openSevRead : Except String Unit
  openSevWrite : Except String Unit
  openKvm : Except String Unit
  kvmApiVersion : Int
  sevParamExists : Bool
  sevParamRead : Except String String
  memlockRlimit : Option (Nat × Nat)

/-- `dev_sev_rw` from src/ok.rs, with the outcome of `OpenOptions::open`
supplied by the environment. -/
def dev_sev_rw (openRes : Except String Unit) : Bool × String :=
  match openRes with
  | Except.ok _ => (true, "Readable")
  | Except.error e => (false, "Error (" ++ e ++ ")")

/-- `dev_sev_r` from src/ok.rs. -/
def dev_sev_r (env : OsEnv) : Bool × String :=
  let (success, msg) := dev_sev_rw env.openSevRead
  if success then (success, "/dev/sev readable")
  else (success, "/dev/sev not readable: " ++ msg)

/-- `dev_sev_w` from src/ok.rs. -/
def dev_sev_w (env : OsEnv) : Bool × String :=
  let (success, msg) := dev_sev_rw env.openSevWrite
  if success then (success, "/dev/sev writable")
  else (success, "/dev/sev not writable: " ++ msg)

/-- `has_kvm_support` from src/ok.rs. -/
def has_kvm_support (env : OsEnv) : Bool × String :=
  match env.openKvm with
  | Except.ok _ =>
    if env.kvmApiVersion < 0 then
      (false, "KVM probing error: accessing KVM device node failed")
    else
      (true, "KVM API version: " ++ toString env.kvmApiVersion)
  | Except.error e =>
    (false, "KVM probing error while reading /dev/kvm: (" ++ e ++ ")")

/-- `sev_enabled_in_kvm` from src/ok.rs. -/
def sev_enabled_in_kvm (env : OsEnv) : Bool × String :=
  if env.sevParamExists then
    match env.sevParamRead with
    | Except.ok result =>
      if result.trim == "1" then (true, "SEV enabled in KVM")
      else
        (false, "Error checking if SEV is enabled in KVM (contents read from /sys/module/kvm_amd/parameters/sev: "
          ++ result.trim ++ ")")
    | Except.error e =>
      (false, "Error checking if SEV is enabled in KVM (unable to read /sys/module/kvm_amd/parameters/sev): "
        ++ e)
  else
    (false, "Error checking if SEV is enabled in KVM: /sys/module/kvm_amd/parameters/sev does not exist")

/-- `memlock_rlimit` from src/ok.rs. -/
def memlock_rlimit (env : OsEnv) : Bool × String :=
  match env.memlockRlimit with
  | some (cur, max) =>
    (true, "memlock resource limits -- Soft: " ++ toString cur ++ " | Hard: " ++ toString max)
  | none => (false, "Unable to get memlock resource limits")

/-- The `sys_tests` vector built in `cmd` (src/ok.rs lines 150-162):
each entry pairs the check function with its display name. -/
def sys_tests : List ((OsEnv → Bool × String) × String) :=
  [(dev_sev_r, "/dev/sev readable"),
   (dev_sev_w, "/dev/sev writable"),
   (has_kvm_support, "KVM support"),
   (sev_enabled_in_kvm, "SEV enablement in KVM"),
   (memlock_rlimit, "Memlock resource limit")]

/-- The inner CPUID loop of `cmd` when the group is entered with
`passed = true` (src/ok.rs lines 167-175): every probe in the group
executes (a failure flips `passed` but does not stop the loop), an event
is emitted unless quiet, and the invoked probe names are recorded.
`none` propagates a panic from a check. -/
def runProbes (env : CpuidEnv) (quiet : Bool) :
    Bool → List CpuId → Option (List Event × List String × Bool)
  | passed, [] => some ([], [], passed)
  | passed, c :: cs =>
    match c.execute env with
    | none => none
    | some (success, msg) =>
      let passed2 := if success then passed else false
      let evs := if quiet then [] else [Event.result success msg c.level]
      match runProbes env quiet passed2 cs with
      | none => none
      | some (evs2, exs2, p2) => some (evs ++ evs2, c.name :: exs2, p2)

/-- The skip loop over one group (src/ok.rs lines 177-181): one skip event
per probe unless quiet, nothing executed. -/
def skipEvents (quiet : Bool) (cs : List CpuId) : List Event :=
  if quiet then [] else cs.map (fun c => Event.skip c.name c.level)

/-- All skip events of a list of groups. -/
def skipAll (quiet : Bool) (gs : List (List CpuId)) : List Event :=
  (gs.map (skipEvents quiet)).flatten

/-- The outer CPUID loop of `cmd` (src/ok.rs lines 165-183): per group,
the `passed` flag decides once whether the group executes or is skipped. -/
def runCpuGroups (env : CpuidEnv) (quiet : Bool) :
    Bool → List (List CpuId) → Option (List Event × List String × Bool)
  | passed, [] => some ([], [], passed)
  | passed, g :: gs =>
    if passed then
      match runProbes env quiet passed g with
      | none => none
      | some (evs, exs, p2) =>
        match runCpuGroups env quiet p2 gs with
        | none => none
        | some (evs2, exs2, p3) => some (evs ++ evs2, exs ++ exs2, p3)
    else
      match runCpuGroups env quiet passed gs with
      | none => none
      | some (evs2, exs2, p3) => some (skipEvents quiet g ++ evs2, exs2, p3)

/-- The executing system-test loop of `cmd` (src/ok.rs lines 187-195):
every test runs (a failure flips `passed` but does not stop the loop). -/
def execSysTests (osEnv : OsEnv) (quiet : Bool) :
    Bool → List ((OsEnv → Bool × String) × String) → List Event × List String × Bool
  | passed, [] => ([], [], passed)
  | passed, (f, name) :: ts =>
    let (success, msg) := f osEnv
    let evs := if quiet then [] else [Event.result success msg SYS_TEST_LEVEL]
    let passed2 := if success then passed else false
    let (evs2, exs2, p2) := execSysTests osEnv quiet passed2 ts
    (evs ++ evs2, name :: exs2, p2)

/-- The skipping system-test loop of `cmd` (src/ok.rs lines 197-201). -/
def skipSysTests (quiet : Bool) (ts : List ((OsEnv → Bool × String) × String)) : List Event :=
  if quiet then [] else ts.map (fun t => Event.skip t.2 SYS_TEST_LEVEL)

/-- The error message of the aggregate failure (src/ok.rs line 208). -/
def okFailureMsg : String := "One or more tests in sevctl-ok reported a failure"

/-- The observable outcome of one engine run: the Reporter-sink events in
emission order, the names of the probes/tests whose check function was
invoked (in invocation order), the final `passed` flag, and the returned
`Result`. -/
structure RunOut where
  events : List Event
  execs : List String
  passed : Bool
  result : Except String Unit
deriving Repr

/-- `cmd` from src/ok.rs: build the catalog (defaulting to Es), run the
gated CPUID groups, then the system tests gated as a block on the CPUID
outcome, and return `Ok(())` exactly when `passed` survived.  `none`
models a panic escaping the run. -/
def cmd (cpuEnv : CpuidEnv) (osEnv : OsEnv) (gen : Option SevGeneration) (quiet : Bool) :
    Option RunOut :=
  match runCpuGroups cpuEnv quiet true (catalogOf gen) with
  | none => none
  | some (evs, exs, passed) =>
    let (evs2, exs2, passed2) :=
      if passed then execSysTests osEnv quiet passed sys_tests
      else (skipSysTests quiet sys_tests, [], passed)
    some ⟨evs ++ evs2, exs ++ exs2, passed2,
      if passed2 then Except.ok () else Except.error okFailureMsg⟩

/-- A CPUID environment returning all-zero registers: the vendor string is
twelve NUL bytes (valid UTF-8, not "AuthenticAMD"), so the tier-1 probe
fails cleanly. -/
def zeroEnv : CpuidEnv := fun _ => ⟨0, 0, 0, 0⟩

/-- A CPUID environment for an AuthenticAMD EPYC CPU whose leaf 0x8000001f
has eax = 1: SME is present but SEV is absent, so the tier-3 group fails at
its first probe while its second probe succeeds. -/
def exEnvC1 : CpuidEnv := fun leaf =>
  if leaf = 0 then ⟨0, 0x68747541, 0x444d4163, 0x69746e65⟩
  else if leaf = 0x80000002 then ⟨0x43595045, 0x20202020, 0x20202020, 0x20202020⟩
  else if leaf = 0x8000001f then ⟨1, 0, 0, 0⟩
  else ⟨0x20202020, 0x20202020, 0x20202020, 0x20202020⟩

/-- A CPUID environment whose leaf-0 ebx is 0xFFFFFFFF: the four bytes 0xFF
are not valid UTF-8, so the tier-1 vendor check panics. -/
def ffEnv : CpuidEnv := fun leaf =>
  if leaf = 0 then ⟨0, 0xFFFFFFFF, 0, 0⟩ else ⟨0, 0, 0, 0⟩

/-- A concrete OS environment (no /dev/sev, KVM present, kvm_amd sev
parameter absent). -/
def exOsEnv : OsEnv :=
  { openSevRead := Except.error "No such file or directory (os error 2)"
    openSevWrite := Except.error "No such file or directory (os error 2)"
    openKvm := Except.ok ()
    kvmApiVersion := 12
    sevParamExists := false
    sevParamRead := Except.error "unreadable"
    memlockRlimit := some (65536, 65536) }

/-- Is an event a Fail report (`emit_result` with success = false). -/
def isFailEvent : Event → Bool
  | Event.result false _ _ => true
  | _ => false

theorem runProbes_execs (env : CpuidEnv) (quiet : Bool) (ps : List CpuId) :
    ∀ passed evs exs p, runProbes env quiet passed ps = some (evs, exs, p) →
      exs = ps.map CpuId.name := by
  induction ps with
  | nil =>
    intro passed evs exs p h
    simp only [runProbes, Option.some.injEq, Prod.mk.injEq] at h
    obtain ⟨-, h2, -⟩ := h
    simp [← h2]
  | cons c cs ih =>
    intro passed evs exs p h
    simp only [runProbes] at h
    cases hex : c.execute env with
    | none => simp [hex] at h
    | some v =>
      obtain ⟨success, msg⟩ := v
      simp only [hex] at h
      cases hrec : runProbes env quiet (if success then passed else false) cs with
      | none => rw [hrec] at h; simp at h
      | some w =>
        obtain ⟨evs2, exs2, p2⟩ := w
        simp only [hrec, Option.some.injEq, Prod.mk.injEq] at h
        obtain ⟨-, h2, -⟩ := h
        simp [← h2, ih _ _ _ _ hrec]

theorem runProbes_len (env : CpuidEnv) (ps : List CpuId) :
    ∀ passed evs exs p, runProbes env false passed ps = some (evs, exs, p) →
      evs.length = ps.length := by
  induction ps with
  | nil =>
    intro passed evs exs p h
    simp only [runProbes, Option.some.injEq, Prod.mk.injEq] at h
    obtain ⟨h1, -, -⟩ := h
    simp [← h1]
  | cons c cs ih =>
    intro passed evs exs p h
    simp only [runProbes] at h
    cases hex : c.execute env with
    | none => simp [hex] at h
    | some v =>
      obtain ⟨success, msg⟩ := v
      simp only [hex] at h
      cases hrec : runProbes env false (if success then passed else false) cs with
      | none => rw [hrec] at h; simp at h
      | some w =>
        obtain ⟨evs2, exs2, p2⟩ := w
        simp only [hrec, Option.some.injEq, Prod.mk.injEq] at h
        obtain ⟨h1, -, -⟩ := h
        simp [← h1, ih _ _ _ _ hrec]

theorem runProbes_quiet (env : CpuidEnv) (ps : List CpuId) :
    ∀ passed, runProbes env true passed ps =
      (runProbes env false passed ps).map (fun r => ([], r.2.1, r.2.2)) := by
  induction ps with
  | nil => intro passed; simp [runProbes]
  | cons c cs ih =>
    intro passed
    simp only [runProbes]
    cases hex : c.execute env with
    | none => simp
    | some v =>
      obtain ⟨success, msg⟩ := v
      simp only [ih]
      cases hrec : runProbes env false (if success then passed else false) cs with
      | none => simp
      | some w => simp

theorem runProbes_noFail (env : CpuidEnv) (ps : List CpuId) :
    ∀ passed evs exs p, runProbes env false passed ps = some (evs, exs, p) →
      p = (passed && !evs.any isFailEvent) := by
  induction ps with
  | nil =>
    intro passed evs exs p h
    simp only [runProbes, Option.some.injEq, Prod.mk.injEq] at h
    obtain ⟨h1, -, h3⟩ := h
    subst h1
    subst h3
    simp
  | cons c cs ih =>
    intro passed evs exs p h
    simp only [runProbes] at h
    cases hex : c.execute env with
    | none => simp [hex] at h
    | some v =>
      obtain ⟨success, msg⟩ := v
      simp only [hex] at h
      cases hrec : runProbes env false (if success then passed else false) cs with
      | none => rw [hrec] at h; simp at h
      | some w =>
        obtain ⟨evs2, exs2, p2⟩ := w
        simp only [hrec, Option.some.injEq, Prod.mk.injEq] at h
        obtain ⟨h1, -, h3⟩ := h
        subst h1
        subst h3
        have := ih _ _ _ _ hrec
        cases success <;> cases passed <;> simp_all [isFailEvent]

theorem skipEvents_len (g : List CpuId) : (skipEvents false g).length = g.length := by
  simp [skipEvents]

theorem skipEvents_noFail (quiet : Bool) (g : List CpuId) :
    (skipEvents quiet g).any isFailEvent = false := by
  cases quiet <;> simp [skipEvents, isFailEvent]

theorem skipAll_len (gs : List (List CpuId)) :
    (skipAll false gs).length = (gs.map List.length).sum := by
  induction gs with
  | nil => simp [skipAll]
  | cons g gs ih =>
    simp only [skipAll, List.map_cons, List.flatten_cons, List.length_append] at ih ⊢
    simp [ih, skipEvents_len]

theorem skipAll_noFail (quiet : Bool) (gs : List (List CpuId)) :
    (skipAll quiet gs).any isFailEvent = false := by
  induction gs with
  | nil => simp [skipAll]
  | cons g gs ih =>
    simp only [skipAll, List.map_cons, List.flatten_cons, List.any_append] at ih ⊢
    simp [ih, skipEvents_noFail]

theorem runCpuGroups_false (env : CpuidEnv) (quiet : Bool) (gs : List (List CpuId)) :
    runCpuGroups env quiet false gs = some (skipAll quiet gs, [], false) := by
  induction gs with
  | nil => simp [runCpuGroups, skipAll]
  | cons g gs ih =>
    simp only [runCpuGroups, Bool.false_eq_true, if_false, ih]
    simp [skipAll]

theorem runCpuGroups_execs (env : CpuidEnv) (quiet : Bool) (gs : List (List CpuId)) :
    ∀ passed evs exs p, runCpuGroups env quiet passed gs = some (evs, exs, p) →
      ∃ n, exs = (gs.take n).flatten.map CpuId.name := by
  induction gs with
  | nil =>
    intro passed evs exs p h
    simp only [runCpuGroups, Option.some.injEq, Prod.mk.injEq] at h
    obtain ⟨-, h2, -⟩ := h
    exact ⟨0, by simp [← h2]⟩
  | cons g gs ih =>
    intro passed evs exs p h
    simp only [runCpuGroups] at h
    cases passed with
    | true =>
      rw [if_pos rfl] at h
      cases hg : runProbes env quiet true g with
      | none => rw [hg] at h; simp at h
      | some w =>
        obtain ⟨evs1, exs1, p2⟩ := w
        simp only [hg] at h
        cases hrec : runCpuGroups env quiet p2 gs with
        | none => rw [hrec] at h; simp at h
        | some w2 =>
          obtain ⟨evs2, exs2, p3⟩ := w2
          simp only [hrec, Option.some.injEq, Prod.mk.injEq] at h
          obtain ⟨-, h2, -⟩ := h
          obtain ⟨n, hn⟩ := ih p2 evs2 exs2 p3 hrec
          refine ⟨n + 1, ?_⟩
          simp [← h2, hn, runProbes_execs env quiet g true evs1 exs1 p2 hg]
    | false =>
      rw [if_neg (by simp)] at h
      simp only [runCpuGroups_false, Option.some.injEq, Prod.mk.injEq] at h
      obtain ⟨-, h2, -⟩ := h
      exact ⟨0, by simp [← h2]⟩

theorem runCpuGroups_len (env : CpuidEnv) (gs : List (List CpuId)) :
    ∀ passed evs exs p, runCpuGroups env false passed gs = some (evs, exs, p) →
      evs.length = (gs.map List.length).sum := by
  induction gs with
  | nil =>
    intro passed evs exs p h
    simp only [runCpuGroups, Option.some.injEq, Prod.mk.injEq] at h
    obtain ⟨h1, -, -⟩ := h
    simp [← h1]
  | cons g gs ih =>
    intro passed evs exs p h
    simp only [runCpuGroups] at h
    cases passed with
    | true =>
      rw [if_pos rfl] at h
      cases hg : runProbes env false true g with
      | none => rw [hg] at h; simp at h
      | some w =>
        obtain ⟨evs1, exs1, p2⟩ := w
        simp only [hg] at h
        cases hrec : runCpuGroups env false p2 gs with
        | none => rw [hrec] at h; simp at h
        | some w2 =>
          obtain ⟨evs2, exs2, p3⟩ := w2
          simp only [hrec, Option.some.injEq, Prod.mk.injEq] at h
          obtain ⟨h1, -, -⟩ := h
          simp [← h1, runProbes_len env g true evs1 exs1 p2 hg, ih p2 evs2 exs2 p3 hrec]
    | false =>
      rw [if_neg (by simp)] at h
      simp only [runCpuGroups_false, Option.some.injEq, Prod.mk.injEq] at h
      obtain ⟨h1, -, -⟩ := h
      simp [← h1, skipEvents_len, skipAll_len]

theorem runCpuGroups_quiet (env : CpuidEnv) (gs : List (List CpuId)) :
    ∀ passed, runCpuGroups env true passed gs =
      (runCpuGroups env false passed gs).map (fun r => ([], r.2.1, r.2.2)) := by
  induction gs with
  | nil => intro passed; simp [runCpuGroups]
  | cons g gs ih =>
    intro passed
    simp only [runCpuGroups]
    cases passed with
    | true =>
      rw [if_pos rfl, if_pos rfl, runProbes_quiet]
      cases hg : runProbes env false true g with
      | none => simp
      | some w =>
        obtain ⟨evs1, exs1, p2⟩ := w
        simp only [Option.map_some', ih]
        cases hrec : runCpuGroups env false p2 gs with
        | none => simp
        | some w2 => obtain ⟨evs2, exs2, p3⟩ := w2; simp
    | false =>
      rw [if_neg (by simp), if_neg (by simp), ih]
      cases hrec : runCpuGroups env false false gs with
      | none => simp
      | some w2 => obtain ⟨evs2, exs2, p3⟩ := w2; simp [skipEvents]

theorem runCpuGroups_noFail (env : CpuidEnv) (gs : List (List CpuId)) :
    ∀ passed evs exs p, runCpuGroups env false passed gs = some (evs, exs, p) →
      p = (passed && !evs.any isFailEvent) := by
  induction gs with
  | nil =>
    intro passed evs exs p h
    simp only [runCpuGroups, Option.some.injEq, Prod.mk.injEq] at h
    obtain ⟨h1, -, h3⟩ := h
    subst h1
    subst h3
    simp
  | cons g gs ih =>
    intro passed evs exs p h
    simp only [runCpuGroups] at h
    cases passed with
    | true =>
      rw [if_pos rfl] at h
      cases hg : runProbes env false true g with
      | none => rw [hg] at h; simp at h
      | some w =>
        obtain ⟨evs1, exs1, p2⟩ := w
        simp only [hg] at h
        cases hrec : runCpuGroups env false p2 gs with
        | none => rw [hrec] at h; simp at h
        | some w2 =>
          obtain ⟨evs2, exs2, p3⟩ := w2
          simp only [hrec, Option.some.injEq, Prod.mk.injEq] at h
          obtain ⟨h1, -, h3⟩ := h
          subst h1
          subst h3
          have e1 := runProbes_noFail env g true evs1 exs1 p2 hg
          have e2 := ih p2 evs2 exs2 p3 hrec
          simp only [List.any_append]
          cases ha : evs1.any isFailEvent <;> cases hb : evs2.any isFailEvent <;>
            simp_all
    | false =>
      rw [if_neg (by simp)] at h
      simp only [runCpuGroups_false, Option.some.injEq, Prod.mk.injEq] at h
      obtain ⟨-, -, h3⟩ := h
      simp [← h3]

theorem execSysTests_cons (osEnv : OsEnv) (quiet passed : Bool)
    (f : OsEnv → Bool × String) (name : String)
    (ts : List ((OsEnv → Bool × String) × String)) :
    execSysTests osEnv quiet passed ((f, name) :: ts) =
      ((if quiet then [] else [Event.result (f osEnv).1 (f osEnv).2 SYS_TEST_LEVEL]) ++
          (execSysTests osEnv quiet (if (f osEnv).1 then passed else false) ts).1,
        name :: (execSysTests osEnv quiet (if (f osEnv).1 then passed else false) ts).2.1,
        (execSysTests osEnv quiet (if (f osEnv).1 then passed else false) ts).2.2) := rfl

theorem execSysTests_execs (osEnv : OsEnv) (quiet : Bool)
    (ts : List ((OsEnv → Bool × String) × String)) :
    ∀ passed, (execSysTests osEnv quiet passed ts).2.1 = ts.map Prod.snd := by
  induction ts with
  | nil => intro passed; simp [execSysTests]
  | cons t ts ih =>
    intro passed
    obtain ⟨f, name⟩ := t
    rw [execSysTests_cons]
    simp [ih]

theorem execSysTests_len (osEnv : OsEnv)
    (ts : List ((OsEnv → Bool × String) × String)) :
    ∀ passed, (execSysTests osEnv false passed ts).1.length = ts.length := by
  induction ts with
  | nil => intro passed; simp [execSysTests]
  | cons t ts ih =>
    intro passed
    obtain ⟨f, name⟩ := t
    rw [execSysTests_cons]
    simp [ih]

theorem execSysTests_quiet (osEnv : OsEnv)
    (ts : List ((OsEnv → Bool × String) × String)) :
    ∀ passed, execSysTests osEnv true passed ts =
      ([], (execSysTests osEnv false passed ts).2.1,
        (execSysTests osEnv false passed ts).2.2) := by
  induction ts with
  | nil => intro passed; simp [execSysTests]
  | cons t ts ih =>
    intro passed
    obtain ⟨f, name⟩ := t
    rw [execSysTests_cons, execSysTests_cons]
    simp [ih]

theorem execSysTests_noFail (osEnv : OsEnv)
    (ts : List ((OsEnv → Bool × String) × String)) :
    ∀ passed, (execSysTests osEnv false passed ts).2.2 =
      (passed && !(execSysTests osEnv false passed ts).1.any isFailEvent) := by
  induction ts with
  | nil => intro passed; simp [execSysTests]
  | cons t ts ih =>
    intro passed
    obtain ⟨f, name⟩ := t
    rw [execSysTests_cons]
    cases hf : (f osEnv).1 with
    | true =>
      simp only [if_pos rfl, List.any_append, ih]
      simp [isFailEvent, hf]
    | false =>
      simp only [Bool.false_eq_true, if_false, List.any_append, ih]
      simp [isFailEvent, hf]

theorem skipSysTests_noFail (quiet : Bool)
    (ts : List ((OsEnv → Bool × String) × String)) :
    (skipSysTests quiet ts).any isFailEvent = false := by
  cases quiet with
  | true => simp [skipSysTests]
  | false =>
    simp only [skipSysTests, Bool.false_eq_true, if_false, List.any_map, List.any_eq_false,
      Function.comp, List.mem_map, forall_exists_index, and_imp, Prod.forall]
    intro x f s hmem heq
    subst heq
    simp [isFailEvent]

theorem skipSysTests_len (ts : List ((OsEnv → Bool × String) × String)) :
    (skipSysTests false ts).length = ts.length := by
  simp [skipSysTests]

theorem cmd_eq (cpuEnv : CpuidEnv) (osEnv : OsEnv) (gen : Option SevGeneration) (quiet : Bool) :
    cmd cpuEnv osEnv gen quiet =
      match runCpuGroups cpuEnv quiet true (catalogOf gen) with
      | none => none
      | some (evs, exs, passed) =>
        if passed then
          some ⟨evs ++ (execSysTests osEnv quiet passed sys_tests).1,
            exs ++ (execSysTests osEnv quiet passed sys_tests).2.1,
            (execSysTests osEnv quiet passed sys_tests).2.2,
            if (execSysTests osEnv quiet passed sys_tests).2.2 then Except.ok ()
            else Except.error okFailureMsg⟩
        else
          some ⟨evs ++ skipSysTests quiet sys_tests, exs ++ [], passed,
            if passed then Except.ok () else Except.error okFailureMsg⟩ := by
  cases hc : runCpuGroups cpuEnv quiet true (catalogOf gen) with
  | none => unfold cmd; rw [hc]
  | some w =>
    obtain ⟨evs, exs, passed⟩ := w
    unfold cmd
    rw [hc]
    cases passed with
    | true => rfl
    | false => rfl

theorem cmd_events_len (cpuEnv : CpuidEnv) (osEnv : OsEnv) (gen : Option SevGeneration)
    (t : RunOut) (h : cmd cpuEnv osEnv gen false = some t) :
    t.events.length = ((catalogOf gen).map List.length).sum + sys_tests.length := by
  rw [cmd_eq] at h
  cases hc : runCpuGroups cpuEnv false true (catalogOf gen) with
  | none => rw [hc] at h; simp at h
  | some w =>
    obtain ⟨evs, exs, passed⟩ := w
    rw [hc] at h
    have hlen := runCpuGroups_len cpuEnv (catalogOf gen) true evs exs passed hc
    cases passed with
    | true =>
      simp only [Option.some.injEq, reduceIte] at h
      subst h
      simp [hlen, execSysTests_len]
    | false =>
      simp only [Bool.false_eq_true, if_false, Option.some.injEq] at h
      subst h
      simp [hlen, skipSysTests_len]

theorem cmd_result_contract (cpuEnv : CpuidEnv) (osEnv : OsEnv) (gen : Option SevGeneration)
    (quiet : Bool) (t : RunOut) (h : cmd cpuEnv osEnv gen quiet = some t) :
    (t.result = Except.ok () ↔ t.passed = true) ∧
    (t.passed = false → t.result = Except.error okFailureMsg) := by
  rw [cmd_eq] at h
  cases hc : runCpuGroups cpuEnv quiet true (catalogOf gen) with
  | none => rw [hc] at h; simp at h
  | some w =>
    obtain ⟨evs, exs, passed⟩ := w
    rw [hc] at h
    cases passed with
    | true =>
      simp only [Option.some.injEq, reduceIte] at h
      subst h
      cases hp : (execSysTests osEnv quiet true sys_tests).2.2 <;> simp [hp]
    | false =>
      simp only [Bool.false_eq_true, if_false, Option.some.injEq] at h
      subst h
      simp

theorem cmd_passed_iff_noFail (cpuEnv : CpuidEnv) (osEnv : OsEnv) (gen : Option SevGeneration)
    (t : RunOut) (h : cmd cpuEnv osEnv gen false = some t) :
    t.passed = true ↔ t.events.countP isFailEvent = 0 := by
  rw [cmd_eq] at h
  cases hc : runCpuGroups cpuEnv false true (catalogOf gen) with
  | none => rw [hc] at h; simp at h
  | some w =>
    obtain ⟨evs, exs, passed⟩ := w
    rw [hc] at h
    have hcpu := runCpuGroups_noFail cpuEnv (catalogOf gen) true evs exs passed hc
    cases passed with
    | true =>
      simp only [Option.some.injEq, reduceIte] at h
      subst h
      have hsys := execSysTests_noFail osEnv sys_tests true
      have hevs : evs.any isFailEvent = false := by
        cases hx : evs.any isFailEvent
        · rfl
        · rw [hx] at hcpu; simp at hcpu
      simp only [RunOut.passed, RunOut.events, hsys, Bool.true_and]
      rw [List.countP_eq_zero]
      cases hy : (execSysTests osEnv false true sys_tests).1.any isFailEvent with
      | true =>
        simp only [hy, Bool.not_true]
        constructor
        · intro hfalse; exact absurd hfalse (by simp)
        · intro hall
          rw [List.any_eq_true] at hy
          obtain ⟨e, he, hfe⟩ := hy
          exact absurd hfe (by simpa using hall e (List.mem_append_right evs he))
      | false =>
        simp only [hy, Bool.not_false]
        constructor
        · intro htriv e he
          rcases List.mem_append.mp he with h1 | h2
          · rw [List.any_eq_false] at hevs
            simpa using hevs e h1
          · rw [List.any_eq_false] at hy
            simpa using hy e h2
        · intro hall; trivial
    | false =>
      simp only [Bool.false_eq_true, if_false, Option.some.injEq] at h
      subst h
      have hevs : evs.any isFailEvent = true := by
        cases hx : evs.any isFailEvent
        · rw [hx] at hcpu; simp at hcpu
        · rfl
      rw [List.any_eq_true] at hevs
      obtain ⟨e, he, hfe⟩ := hevs
      simp only [RunOut.passed, RunOut.events]
      constructor
      · intro hfalse; exact absurd hfalse (by simp)
      · intro hzero
        rw [List.countP_eq_zero] at hzero
        exact absurd hfe (by simpa using hzero e (List.mem_append_left _ he))

/-- Claim C7: invoking the run with no generation selector builds exactly the
catalog of the Encrypted State (Es) variant, and the Es catalog is the plain
SEV catalog with exactly one extra group consisting of one tier-4 probe (all
other groups identical). -/
theorem C7_default_generation_and_es_catalog :
    catalogOf none = collect_cpuids SevGeneration.Es ∧
    collect_cpuids SevGeneration.Es = collect_cpuids SevGeneration.Sev ++ [SEV_ES_CPUIDS] ∧
    ((collect_cpuids SevGeneration.Es).flatten.filter (fun c => c.level == 4)).length =
      ((collect_cpuids SevGeneration.Sev).flatten.filter (fun c => c.level == 4)).length + 1 ∧
    SEV_ES_CPUIDS.length = 1 ∧ sevEsProbe.level = 4 :=
  ⟨rfl, rfl, rfl, rfl, rfl⟩

/-- Claim C9, amended: every probe check except the tier-1 AMD CPU vendor
check is total (never panics) for every register result; the vendor check
panics exactly when the 12 vendor-string bytes are not valid UTF-8 (the
source calls `from_utf8(...).unwrap()` there), instead of converting that
failure into a `(false, text)` result. -/
theorem C9_checks_total_except_vendor_unwrap (env : CpuidEnv) (res : CpuidResult) :
    (amdCpuFunc env res).isNone = !utf8Valid (vendorBytes res) ∧
    (microcodeFunc env res).isSome = true ∧
    (amdSevFunc env res).isSome = true ∧
    (amdSmeFunc env res).isSome = true ∧
    (pageFlushFunc env res).isSome = true ∧
    (physAddrFunc env res).isSome = true ∧
    (cBitFunc env res).isSome = true ∧
    (encGuestsFunc env res).isSome = true ∧
    (minAsidFunc env res).isSome = true ∧
    (sevEsFunc env res).isSome = true := by
  refine ⟨?_, rfl, rfl, rfl, rfl, rfl, rfl, rfl, rfl, rfl⟩
  unfold amdCpuFunc
  cases h : utf8Valid (vendorBytes res) <;> simp [h]

/-- Claim C9, counterexample to the claim as stated: the tier-1 vendor
check panics (modelled as `none`) on a register result whose vendor bytes
(ebx = 0xFFFFFFFF gives four 0xFF bytes) are not valid UTF-8 — the failure
is not converted into a `(false, text)` result, and the whole run aborts
instead of returning. -/
theorem C9_vendor_check_panics_on_invalid_utf8 :
    amdCpuFunc zeroEnv ⟨0, 0xFFFFFFFF, 0, 0⟩ = none ∧
    coreProbe.execute ffEnv = none ∧
    cmd ffEnv exOsEnv none false = none :=
  ⟨rfl, rfl, rfl⟩

/-- Claim C10: the four informational tier-4 probes always succeed, so they
can never flip `passed` (shown on the engine: running exactly those four
probes, i.e. `SEV_SME_DEPENDENT_CPUIDS` minus its head, preserves the
`passed` flag for every environment); and because Rust's `>>` binds tighter
than `&`, the "Physical address bit reduction" probe reports
`ebx & 0b111111` (bits 5:0), not bits 11:6 shifted down — on ebx with bits
11:6 all set it reports "0". -/
theorem C10_informational_probes_always_pass (env : CpuidEnv) (res : CpuidResult)
    (passed quiet : Bool) :
    physAddrFunc env res = some (true, some (toString (res.ebx &&& 63))) ∧
    cBitFunc env res = some (true, some (toString (res.ebx &&& 31))) ∧
    encGuestsFunc env res = some (true, some (toString res.ecx)) ∧
    minAsidFunc env res = some (true, some (toString res.edx)) ∧
    physAddrFunc env ⟨0, 0b111111000000, 0, 0⟩ = some (true, some "0") ∧
    (runProbes env quiet passed (SEV_SME_DEPENDENT_CPUIDS.drop 1)).map (fun r => r.2.2) =
      some passed := by
  refine ⟨rfl, rfl, rfl, rfl, rfl, ?_⟩
  show (runProbes env quiet passed [physAddrProbe, cBitProbe, encGuestsProbe, minAsidProbe]).map
      (fun r => r.2.2) = some passed
  simp only [runProbes, CpuId.execute, physAddrProbe, cBitProbe, encGuestsProbe, minAsidProbe,
    physAddrFunc, cBitFunc, encGuestsFunc, minAsidFunc, if_pos rfl]
  simp

/-- The full Reporter-sink trace of the run refuting claim C1: an
AuthenticAMD EPYC machine whose leaf 0x8000001f has eax = 1, so in the
tier-3 group the first probe (AMD SEV) fails while the second (AMD SME)
succeeds. -/
def c1Events : List Event :=
  [Event.result true "AMD CPU" 1,
   Event.result true "Microcode support" 2,
   Event.result false "AMD SEV" 3,
   Event.result true "AMD SME" 3,
   Event.skip "Page flush MSR" 4,
   Event.skip "Physical address bit reduction" 4,
   Event.skip "C-bit location in page table entry" 4,
   Event.skip "Number of encrypted guests supported simultaneously" 4,
   Event.skip "Minimum ASID value for SEV-enabled, SEV-ES disabled guest" 4,
   Event.skip "AMD SEV-ES" 4,
   Event.skip "/dev/sev readable" 5,
   Event.skip "/dev/sev writable" 5,
   Event.skip "KVM support" 5,
   Event.skip "SEV enablement in KVM" 5,
   Event.skip "Memlock resource limit" 5]

/-- Claim C1, counterexample to the claim as stated: in the run on
`exEnvC1` the tier-3 probe "AMD SEV" fails while the engine is RUNNING,
yet the next probe of the same group, "AMD SME", is still executed (its
name appears in the invocation trace) and is reported as a Pass result,
not as Skip — the DEGRADED transition does not take effect within the
current group. -/
theorem C1_failure_does_not_skip_rest_of_group :
    cmd exEnvC1 exOsEnv none false =
      some ⟨c1Events, ["AMD CPU", "Microcode support", "AMD SEV", "AMD SME"], false,
        Except.error okFailureMsg⟩ ∧
    Event.result false "AMD SEV" 3 ∈ c1Events ∧
    Event.result true "AMD SME" 3 ∈ c1Events ∧
    "AMD SME" ∈ ["AMD CPU", "Microcode support", "AMD SEV", "AMD SME"] ∧
    Event.skip "AMD SME" 3 ∉ c1Events := by
  refine ⟨rfl, by decide, by decide, by decide, by decide⟩

/-- Claim C1, amended: when a probe fails while the engine is RUNNING, the
remaining probes of the *current* group still execute and are reported as
Pass/Fail results (the invocation trace covers the whole group); the
DEGRADED state takes effect at the next group boundary: every probe of
every subsequent group is not executed and is reported as Skip. -/
theorem C1_degraded_takes_effect_at_group_boundary (env : CpuidEnv) (quiet : Bool)
    (g : List CpuId) (gs : List (List CpuId)) (evs : List Event) (exs : List String)
    (h : runProbes env quiet true g = some (evs, exs, false)) :
    exs = g.map CpuId.name ∧
    runCpuGroups env quiet true (g :: gs) = some (evs ++ skipAll quiet gs, exs, false) := by
  constructor
  · exact runProbes_execs env quiet g true evs exs false h
  · simp only [runCpuGroups, if_pos rfl, h, runCpuGroups_false]
    simp

/-- Witness for the amended claim C1 at a concrete input: the tier-3 group
of `exEnvC1` fails at its first probe; both its probes execute, and the
tier-4 group is skipped wholesale. -/
theorem C1_degraded_takes_effect_at_group_boundary_witness :
    ["AMD SEV", "AMD SME"] = MICROCODE_DEPENDENT_CPUIDS.map CpuId.name ∧
    runCpuGroups exEnvC1 false true (MICROCODE_DEPENDENT_CPUIDS :: [SEV_SME_DEPENDENT_CPUIDS]) =
      some ([Event.result false "AMD SEV" 3, Event.result true "AMD SME" 3] ++
          skipAll false [SEV_SME_DEPENDENT_CPUIDS],
        ["AMD SEV", "AMD SME"], false) :=
  C1_degraded_takes_effect_at_group_boundary exEnvC1 false MICROCODE_DEPENDENT_CPUIDS
    [SEV_SME_DEPENDENT_CPUIDS]
    [Event.result false "AMD SEV" 3, Event.result true "AMD SME" 3]
    ["AMD SEV", "AMD SME"] (by rfl)

/-- The CPU-phase Reporter events of a run on `zeroEnv`: the tier-1 vendor
check fails (twelve NUL bytes are not "AuthenticAMD") and every later CPU
group is skipped. -/
def zeroCpuEvents : List Event :=
  [Event.result false "AMD CPU" 1,
   Event.skip "Microcode support" 2,
   Event.skip "AMD SEV" 3,
   Event.skip "AMD SME" 3,
   Event.skip "Page flush MSR" 4,
   Event.skip "Physical address bit reduction" 4,
   Event.skip "C-bit location in page table entry" 4,
   Event.skip "Number of encrypted guests supported simultaneously" 4,
   Event.skip "Minimum ASID value for SEV-enabled, SEV-ES disabled guest" 4,
   Event.skip "AMD SEV-ES" 4]

/-- The full outcome of the run on `zeroEnv` with the default generation. -/
def zeroRunOut : RunOut :=
  ⟨zeroCpuEvents ++
    [Event.skip "/dev/sev readable" 5,
     Event.skip "/dev/sev writable" 5,
     Event.skip "KVM support" 5,
     Event.skip "SEV enablement in KVM" 5,
     Event.skip "Memlock resource limit" 5],
   ["AMD CPU"], false, Except.error okFailureMsg⟩

/-- Claim C2: in a non-quiet run that returns, the number of Reporter sink
invocations equals the total number of probes across all CPU-capability
groups plus the number of OS-phase probes — every probe is reported exactly
once, none omitted. -/
theorem C2_reporter_invoked_once_per_probe (cpuEnv : CpuidEnv) (osEnv : OsEnv)
    (gen : Option SevGeneration) (t : RunOut) (h : cmd cpuEnv osEnv gen false = some t) :
    t.events.length = ((catalogOf gen).map List.length).sum + sys_tests.length :=
  cmd_events_len cpuEnv osEnv gen t h

/-- Witness for claim C2 at a concrete input. -/
theorem C2_reporter_invoked_once_per_probe_witness :
    zeroRunOut.events.length = ((catalogOf none).map List.length).sum + sys_tests.length :=
  C2_reporter_invoked_once_per_probe zeroEnv exOsEnv none zeroRunOut (by rfl)

/-- Claim C3: the aggregate verdict is true exactly when zero probes report
Fail (skipped probes never change it), and the run returns Ok exactly when
the aggregate is true. -/
theorem C3_aggregate_true_iff_zero_fails (cpuEnv : CpuidEnv) (osEnv : OsEnv)
    (gen : Option SevGeneration) (t : RunOut) (h : cmd cpuEnv osEnv gen false = some t) :
    (t.passed = true ↔ t.events.countP isFailEvent = 0) ∧
    (t.result = Except.ok () ↔ t.passed = true) :=
  ⟨cmd_passed_iff_noFail cpuEnv osEnv gen t h,
   (cmd_result_contract cpuEnv osEnv gen false t h).1⟩

/-- Witness for claim C3 at a concrete input. -/
theorem C3_aggregate_true_iff_zero_fails_witness :
    (zeroRunOut.passed = true ↔ zeroRunOut.events.countP isFailEvent = 0) ∧
    (zeroRunOut.result = Except.ok () ↔ zeroRunOut.passed = true) :=
  C3_aggregate_true_iff_zero_fails zeroEnv exOsEnv none zeroRunOut (by rfl)

/-- Claim C4: the OS phase is gated as a block on the CPU-phase outcome —
if the CPU phase ends DEGRADED every OS probe is skipped (not invoked,
still reported); otherwise every OS probe's check is invoked, regardless of
the outcomes of its siblings (the OS environment is arbitrary, so an
individual OS failure never prevents the remaining OS probes from
executing). -/
theorem C4_os_phase_gated_as_block (cpuEnv : CpuidEnv) (osEnv : OsEnv)
    (gen : Option SevGeneration) (quiet : Bool) (evs : List Event) (exs : List String)
    (p : Bool) (h : runCpuGroups cpuEnv quiet true (catalogOf gen) = some (evs, exs, p)) :
    (p = false → cmd cpuEnv osEnv gen quiet =
      some ⟨evs ++ skipSysTests quiet sys_tests, exs, false, Except.error okFailureMsg⟩) ∧
    (p = true → (cmd cpuEnv osEnv gen quiet).map RunOut.execs =
      some (exs ++ sys_tests.map Prod.snd)) := by
  constructor
  · intro hp
    subst hp
    rw [cmd_eq, h]
    simp
  · intro hp
    subst hp
    rw [cmd_eq, h]
    simp [execSysTests_execs]

/-- Witness for claim C4 at a concrete input (CPU phase DEGRADED). -/
theorem C4_os_phase_gated_as_block_witness :
    cmd zeroEnv exOsEnv none false =
      some ⟨zeroCpuEvents ++ skipSysTests false sys_tests, ["AMD CPU"], false,
        Except.error okFailureMsg⟩ :=
  (C4_os_phase_gated_as_block zeroEnv exOsEnv none false zeroCpuEvents ["AMD CPU"] false
    (by rfl)).1 rfl

theorem runCpuGroups_head_fail (env : CpuidEnv) (quiet : Bool) (g : CpuId)
    (gs : List (List CpuId)) (msg : String) (h : g.execute env = some (false, msg)) :
    runCpuGroups env quiet true ([g] :: gs) =
      some ((if quiet then [] else [Event.result false msg g.level]) ++ skipAll quiet gs,
        [g.name], false) := by
  simp only [runCpuGroups, if_pos rfl, runProbes, h, Bool.false_eq_true, if_false, if_true]
  rw [runCpuGroups_false]
  simp

/-- Claim C5: whenever the tier-1 vendor probe fails, the whole run reports
exactly one Fail (the tier-1 result) followed by a Skip for every other
CPU-tier probe and every OS-phase probe, and the only check invoked is the
tier-1 probe's. -/
theorem C5_tier1_failure_skips_all_downstream (cpuEnv : CpuidEnv) (osEnv : OsEnv)
    (gen : Option SevGeneration) (msg : String)
    (h : coreProbe.execute cpuEnv = some (false, msg)) :
    cmd cpuEnv osEnv gen false =
      some ⟨Event.result false msg 1 :: (skipAll false (catalogOf gen).tail ++
          skipSysTests false sys_tests),
        ["AMD CPU"], false, Except.error okFailureMsg⟩ := by
  have hcore : runCpuGroups cpuEnv false true (catalogOf gen) =
      some ([Event.result false msg 1] ++ skipAll false (catalogOf gen).tail,
        ["AMD CPU"], false) := by
    match gen with
    | none => exact runCpuGroups_head_fail cpuEnv false coreProbe _ msg h
    | some SevGeneration.Es => exact runCpuGroups_head_fail cpuEnv false coreProbe _ msg h
    | some SevGeneration.Sev => exact runCpuGroups_head_fail cpuEnv false coreProbe _ msg h
  rw [cmd_eq, hcore]
  simp

/-- Witness for claim C5 at a concrete input. -/
theorem C5_tier1_failure_skips_all_downstream_witness :
    cmd zeroEnv exOsEnv none false =
      some ⟨Event.result false "AMD CPU" 1 :: (skipAll false (catalogOf none).tail ++
          skipSysTests false sys_tests),
        ["AMD CPU"], false, Except.error okFailureMsg⟩ :=
  C5_tier1_failure_skips_all_downstream zeroEnv exOsEnv none "AMD CPU" (by rfl)

/-- Claim C6: two runs differing only in the quiet flag invoke the same
probe checks in the same order, end with the same passed flag and the same
returned Result (also aborting identically on a panic); quiet = true only
suppresses Reporter sink output, leaving the event list empty. -/
theorem C6_quiet_only_suppresses_output (cpuEnv : CpuidEnv) (osEnv : OsEnv)
    (gen : Option SevGeneration) :
    (cmd cpuEnv osEnv gen true).map (fun t => (t.execs, t.passed, t.result)) =
      (cmd cpuEnv osEnv gen false).map (fun t => (t.execs, t.passed, t.result)) ∧
    ((cmd cpuEnv osEnv gen true).map RunOut.events).getD [] = [] := by
  rw [cmd_eq cpuEnv osEnv gen true, cmd_eq cpuEnv osEnv gen false,
    runCpuGroups_quiet cpuEnv (catalogOf gen) true]
  cases hc : runCpuGroups cpuEnv false true (catalogOf gen) with
  | none => simp
  | some w =>
    obtain ⟨evs, exs, passed⟩ := w
    cases passed with
    | true => simp [execSysTests_quiet, skipSysTests]
    | false => simp [skipSysTests]

/-- Claim C8: a run that returns has reported every probe (the event count
covers the whole catalog and OS phase when not quiet), returns Ok exactly
when the aggregate verdict is true, and otherwise returns the single fixed
error message stating that one or more checks reported a failure, with no
per-probe detail. -/
theorem C8_completion_and_error_contract (cpuEnv : CpuidEnv) (osEnv : OsEnv)
    (gen : Option SevGeneration) (quiet : Bool) (t : RunOut)
    (h : cmd cpuEnv osEnv gen quiet = some t) :
    (t.result = Except.ok () ↔ t.passed = true) ∧
    (t.passed = false → t.result = Except.error okFailureMsg) ∧
    (quiet = false → t.events.length = ((catalogOf gen).map List.length).sum +
      sys_tests.length) := by
  refine ⟨(cmd_result_contract cpuEnv osEnv gen quiet t h).1,
    (cmd_result_contract cpuEnv osEnv gen quiet t h).2, ?_⟩
  intro hq
  subst hq
  exact cmd_events_len cpuEnv osEnv gen t h

/-- Witness for claim C8 at a concrete input. -/
theorem C8_completion_and_error_contract_witness :
    ((zeroRunOut.result = Except.ok () ↔ zeroRunOut.passed = true) ∧
    (zeroRunOut.passed = false → zeroRunOut.result = Except.error okFailureMsg) ∧
    (false = false → zeroRunOut.events.length = ((catalogOf none).map List.length).sum +
      sys_tests.length)) :=
  C8_completion_and_error_contract zeroEnv exOsEnv none false zeroRunOut (by rfl)
